import Mathlib

/-!
Shallow embedding of the task execution core of crynux-node:
`src/h_server/task/task_runner.py` (state machine, error wrapping) and
`src/h_server/task/task_system.py` (dispatcher).  Python's in-place state
mutation is modelled by explicit state passing; exceptions by an explicit
exception type threaded through `Except`/`Option`; the externally visible
calls (cache dump, queue ack/no_ack, chain/relay calls, watcher unwatch,
file deletion) by a trace of actions.  Bytes are `List Nat` values
(each entry one byte), strings are Lean `String`s.
-/

namespace Crynux

/-- `models.TaskStatus` (module `h_server.models` is outside src/; the six
members are those used by the runner and named in the spec). -/
inductive TaskStatus
  | Pending
  | Executing
  | ResultUploaded
  | Disclosed
  | Success
  | Aborted
deriving DecidableEq, Repr

/-- `models.TaskState`: per-task record.  `files` and `result` start empty
(spec section 3: empty until ResultReady); the runner's `init` constructs
`TaskState(task_id=…, round=0, status=Pending)` without them. -/
structure TaskState where
  task_id : Nat
  round : Nat
  status : TaskStatus
  files : List String := []
  result : List Nat := []
deriving DecidableEq, Repr

/-- `models.TaskEvent`: tagged variant.  The `kind` string is the class
discriminator, so the `isinstance` assertions in `process_event` always hold
for events built by the models module; `otherEvent` stands for an event whose
`kind` is none of the five known discriminators (the `ValueError` branch). -/
inductive TaskEvent
  | taskCreated (task_id round : Nat)
  | taskResultReady (task_id : Nat) (hashes : List String) (files : List String)
  | taskResultCommitmentsReady (task_id : Nat)
  | taskSuccess (task_id : Nat) (result : List Nat)
  | taskAborted (task_id : Nat)
  | otherEvent (task_id : Nat) (kind : String)
deriving DecidableEq, Repr

def TaskEvent.task_id : TaskEvent → Nat
  | .taskCreated t _ => t
  | .taskResultReady t _ _ => t
  | .taskResultCommitmentsReady t => t
  | .taskSuccess t _ => t
  | .taskAborted t => t
  | .otherEvent t _ => t

/-- `TaskErrorSource` from `h_server.task.exceptions` (outside src/; the four
members are the ones constructed in `wrap_task_error`). -/
inductive TaskErrorSource
  | Relay
  | Contracts
  | Celery
  | Unknown
deriving DecidableEq, Repr

/-- `TaskError(message, source, retry)` from `h_server.task.exceptions`. -/
structure TaskError where
  message : String
  source : TaskErrorSource
  retry : Bool
deriving DecidableEq, Repr

/-- The Python exceptions visible to `wrap_task_error` and the dispatcher.
The classes live outside src/ (`h_server.relay.RelayError`,
`h_server.contracts.TxRevertedError`, `celery.exceptions`,
`h_server.task.exceptions.TaskFailure`, builtin `AssertionError` /
`ValueError`, anyio's cancelled exception); only the fields the code reads
are modelled.  `celeryError` carries whether the instance is a
`TimeoutError` / `Retry` subclass, the two subclass tests in
`wrap_task_error`.  `otherExc` is any exception outside the listed classes. -/
inductive PyExc
  | cancelled
  | assertionError (msg : String)
  | relayError (status_code : Nat) (method : String) (message : String)
  | txRevertedError (msg : String)
  | celeryError (isTimeoutError : Bool) (isRetry : Bool) (msg : String)
  | taskFailure (msg : String)
  | valueError (msg : String)
  | taskError (e : TaskError)
  | otherExc (msg : String)
deriving DecidableEq, Repr

/-- Python `str(e)`.  The `__str__` of these exception classes is defined
outside src/; it is modelled as the carried message. -/
def PyExc.str : PyExc → String
  | .cancelled => ""
  | .assertionError m => m
  | .relayError _ _ m => m
  | .txRevertedError m => m
  | .celeryError _ _ m => m
  | .taskFailure m => m
  | .valueError m => m
  | .taskError e => e.message
  | .otherExc m => m

/-- `sub` is a (contiguous) prefix of `l`, decidably. -/
def startsWithSeq : List Char → List Char → Bool
  | [], _ => true
  | _ :: _, [] => false
  | a :: as, b :: bs => a = b && startsWithSeq as bs

/-- `sub` occurs contiguously inside `l`, decidably. -/
def containsSeq (sub : List Char) : List Char → Bool
  | [] => sub.isEmpty
  | b :: bs => startsWithSeq sub (b :: bs) || containsSeq sub bs

/-- Python `sub in s` on strings. -/
def strContains (s sub : String) : Bool :=
  containsSeq sub.data s.data

/-- `wrap_task_error` (task_runner.py lines 48-84): classify an exception
escaping a handler body.  The cancellation exception is re-raised verbatim;
every other exception becomes a `TaskError`.  The Python `except` chain is
ordered, but the modelled classes are disjoint, so a case split is faithful;
a `TaskError` raised inside the body would be caught by the final
`except Exception` (no handler body ever raises one). -/
def wrap_task_error : PyExc → PyExc
  | .cancelled => .cancelled
  | .assertionError m => .taskError ⟨m, .Unknown, false⟩
  | .relayError sc meth m =>
      .taskError ⟨m, .Relay,
        sc = 400 && meth = "getTask"
          && (strContains m "Task not found" || strContains m "Task not ready")⟩
  | .txRevertedError m => .taskError ⟨m, .Contracts, false⟩
  | .celeryError isTimeout isRetry m =>
      .taskError ⟨m, .Celery, isTimeout || isRetry⟩
  | .taskFailure m => .taskError ⟨m, .Celery, true⟩
  | .valueError m => .taskError ⟨m, .Unknown, true⟩
  | .taskError e => .taskError ⟨(PyExc.taskError e).str, .Unknown, true⟩
  | .otherExc m => .taskError ⟨m, .Unknown, true⟩

/-- One hex digit, as `bytes.fromhex` accepts it. -/
def hexDigitVal (c : Char) : Option Nat :=
  if '0' ≤ c ∧ c ≤ '9' then some (c.toNat - '0'.toNat)
  else if 'a' ≤ c ∧ c ≤ 'f' then some (c.toNat - 'a'.toNat + 10)
  else if 'A' ≤ c ∧ c ≤ 'F' then some (c.toNat - 'A'.toNat + 10)
  else none

/-- Pairs of hex digits to bytes; `none` on an odd length or a bad digit.
(`bytes.fromhex` also skips ASCII spaces between pairs; the hashes here are
pure hex and that is not modelled.) -/
def hexPairs : List Char → Option (List Nat)
  | [] => some []
  | [_] => none
  | a :: b :: rest =>
    match hexDigitVal a, hexDigitVal b, hexPairs rest with
    | some hi, some lo, some bs => some ((16 * hi + lo) :: bs)
    | _, _, _ => none

/-- Python `bytes.fromhex(s)`: raises `ValueError` on malformed hex. -/
def bytesFromHex (s : String) : Except PyExc (List Nat) :=
  match hexPairs s.data with
  | some bs => .ok bs
  | none => .error (.valueError ("non-hexadecimal number found in fromhex: " ++ s))

/-- Python `h[2:]`: drop the first two characters. -/
def dropTwo (h : String) : String :=
  String.mk (h.data.drop 2)

/-- `b"".join([bytes.fromhex(h[2:]) for h in hashes])`
(TestTaskRunner.result_ready, task_runner.py line 388): decode every hash
with its first two characters stripped, concatenate in order; the first
decode failure propagates. -/
def decodeHashes (hashes : List String) : Except PyExc (List Nat) :=
  match hashes.mapM (fun h => bytesFromHex (dropTwo h)) with
  | .error e => .error e
  | .ok parts => .ok parts.flatten

/-- Modelled from the spec: `make_result_commitments` lives in
`h_server/task/utils`, which is not under src/.  Spec section 4.3:
`result = concat(decode_hex(h[2:]) for h in hashes)`; the nonce is random and
the commitment is a keccak hash of `result ++ nonce` — neither affects any
claim, so only the `result` component is modelled.  The formula coincides
with the in-src computation of `TestTaskRunner.result_ready`. -/
def make_result_commitments_result (hashes : List String) : Except PyExc (List Nat) :=
  decodeHashes hashes

/-- Python `os.path.dirname` (posix): everything up to the final slash,
trailing slashes stripped unless the head is all slashes. -/
def dirname (p : String) : String :=
  let cs := p.data
  match cs.reverse.findIdx? (· = '/') with
  | none => ""
  | some k =>
    let head := cs.take (cs.length - k)
    if head ≠ [] ∧ ¬ head.all (· = '/') then
      String.mk ((head.reverse.dropWhile (· = '/')).reverse)
    else String.mk head

/-- The externally visible side effects of the runner and the dispatcher,
recorded as a trace. -/
inductive Action
  | dump (s : TaskState)
  | relayGetTask (task_id : Nat)
  | runComputeTask (task_id : Nat)
  | submitCommitment (task_id round : Nat)
  | disclose (task_id round : Nat) (result : List Nat)
  | uploadResult (task_id : Nat) (files : List String)
  | unwatchCommitment
  | unwatchSuccess
  | unwatchAborted
  | rmtreeDir (dir : String)
  | removeRunner (task_id : Nat)
  | deleteState (task_id : Nat)
  | ack
  | noAck
  | sleepRetry
deriving DecidableEq, Repr

/-- Outcomes of the external calls a single `process_event` may perform,
fixed ahead of time (the collaborators are outside src/).  Each field is the
result of the corresponding `await`: `.ok` for normal return, `.error` for
the exception it raises (including `.cancelled` for a cancellation delivered
at that suspension point). -/
structure Env where
  relayGetTask : Except PyExc Unit := .ok ()
  resGet : Except PyExc Unit := .ok ()
  submitCommitment : Except PyExc Unit := .ok ()
  discloseResult : Except PyExc Unit := .ok ()
  uploadResult : Except PyExc Unit := .ok ()
  dirExists : Bool := true
  rmtree : Except PyExc Unit := .ok ()
deriving Repr

/-- The environment in which every external call succeeds. -/
def envOk : Env := {}

/-- The result of one handler body: the task state after the mutations that
happened (Python mutates `self._state` in place, so mutations before an
exception survive it), the side effects performed, and the exception if one
was raised (`none` = normal return). -/
abbrev HandlerResult := TaskState × List Action × Option PyExc

/-- `state_context` (task_runner.py lines 151-158): on every exit of the
body, normal or exceptional, `cache.dump(self._state)` runs (shielded,
5-second deadline — timing not modelled; `self._state` is never `None` once
`init` ran). -/
def with_state_context (body : HandlerResult) : HandlerResult :=
  (body.1, body.2.1 ++ [Action.dump body.1], body.2.2)

/-- `run_task`'s exception discipline inside `task_created` (lines 219-225):
`res.get()` exceptions pass through when they are `CeleryError`s and are
re-raised as `TaskFailure(str(e))` otherwise; a cancellation is delivered at
the `to_thread.run_sync` await itself, not inside the thread. -/
def awaitRunTask (resGet : Except PyExc Unit) : Except PyExc Unit :=
  match resGet with
  | .ok _ => .ok ()
  | .error .cancelled => .error .cancelled
  | .error (.celeryError t r m) => .error (.celeryError t r m)
  | .error e => .error (.taskFailure e.str)

/-- `InferenceTaskRunner.task_created` (lines 192-229): assert Pending, set
`round`, fetch the task from the relay, run the compute job, then set
Executing.  The body runs inside `state_context`. -/
def task_created (env : Env) (s : TaskState) (round : Nat) : HandlerResult :=
  with_state_context <|
    if s.status = TaskStatus.Pending then
      let s1 := { s with round := round }
      match env.relayGetTask with
      | .error e => (s1, [Action.relayGetTask s.task_id], some e)
      | .ok _ =>
        match awaitRunTask env.resGet with
        | .error e =>
            (s1, [Action.relayGetTask s.task_id, Action.runComputeTask s.task_id], some e)
        | .ok _ =>
            ({ s1 with status := TaskStatus.Executing },
             [Action.relayGetTask s.task_id, Action.runComputeTask s.task_id], none)
    else
      (s, [], some (.assertionError "Task status is not pending when receive event TaskCreated."))

/-- `InferenceTaskRunner.result_ready` (lines 231-248): assert Executing,
compute the commitments, submit the commitment on chain, then record
`files`/`result` and set ResultUploaded. -/
def result_ready (env : Env) (s : TaskState) (hashes files : List String) : HandlerResult :=
  with_state_context <|
    if s.status = TaskStatus.Executing then
      match make_result_commitments_result hashes with
      | .error e => (s, [], some e)
      | .ok result =>
        match env.submitCommitment with
        | .error e => (s, [Action.submitCommitment s.task_id s.round], some e)
        | .ok _ =>
            ({ s with status := TaskStatus.ResultUploaded, files := files, result := result },
             [Action.submitCommitment s.task_id s.round], none)
    else
      (s, [], some (.assertionError "Task status is not executing when receive event TaskResultReady."))

/-- `InferenceTaskRunner.commitment_ready` (lines 250-265): assert
ResultUploaded, assert a non-empty result, disclose the result on chain, set
Disclosed; after the state context exits (so after the dump), unwatch the
TaskResultCommitmentsReady subscription — only on the no-exception path. -/
def commitment_ready (env : Env) (s : TaskState) : HandlerResult :=
  let body : HandlerResult :=
    with_state_context <|
      if s.status = TaskStatus.ResultUploaded then
        if 0 < s.result.length then
          match env.discloseResult with
          | .error e => (s, [Action.disclose s.task_id s.round s.result], some e)
          | .ok _ =>
              ({ s with status := TaskStatus.Disclosed },
               [Action.disclose s.task_id s.round s.result], none)
        else
          (s, [], some (.assertionError "Task result not found when receive event TaskResultCommitmentsReady."))
      else
        (s, [], some (.assertionError "Task status is not result_uploaded when receive event TaskResultCommitmentsReady."))
  match body.2.2 with
  | some e => (body.1, body.2.1, some e)
  | none => (body.1, body.2.1 ++ [Action.unwatchCommitment], none)

/-- `InferenceTaskRunner.cleanup` (lines 288-305): assert a terminal status,
unwatch the TaskSuccess and TaskAborted subscriptions, then
`delete_result_files(self._state.files)` in a worker thread: it asserts
`len(files) > 0` and removes `dirname(files[0])` when that directory exists.
No exception handling anywhere: every failure propagates. -/
def cleanup (env : Env) (s : TaskState) : List Action × Option PyExc :=
  if s.status = TaskStatus.Success ∨ s.status = TaskStatus.Aborted then
    let pre := [Action.unwatchSuccess, Action.unwatchAborted]
    match s.files with
    | [] => (pre, some (.assertionError ""))
    | f :: _ =>
      if env.dirExists then
        match env.rmtree with
        | .error e => (pre ++ [Action.rmtreeDir (dirname f)], some e)
        | .ok _ => (pre ++ [Action.rmtreeDir (dirname f)], none)
      else (pre, none)
  else
    ([], some (.assertionError "Task status is not success or aborted when shutdown."))

/-- `await self.cleanup()` after a handler's state context (lines 278, 286):
runs only when the context body returned normally; its actions are appended
after the dump, and its exception becomes the handler's. -/
def andThenCleanup (env : Env) (body : HandlerResult) : HandlerResult :=
  match body.2.2 with
  | some e => (body.1, body.2.1, some e)
  | none =>
    let c := cleanup env body.1
    (body.1, body.2.1 ++ c.1, c.2)

/-- `InferenceTaskRunner.task_success` (lines 267-278): assert Disclosed,
upload the result files to the relay, set Success; then cleanup. -/
def task_success (env : Env) (s : TaskState) : HandlerResult :=
  andThenCleanup env <|
    with_state_context <|
      if s.status = TaskStatus.Disclosed then
        match env.uploadResult with
        | .error e => (s, [Action.uploadResult s.task_id s.files], some e)
        | .ok _ =>
            ({ s with status := TaskStatus.Success },
             [Action.uploadResult s.task_id s.files], none)
      else
        (s, [], some (.assertionError "Task status is not disclosed when receive event TaskSuccess."))

/-- `InferenceTaskRunner.task_aborted` (lines 280-286): no status
precondition — set Aborted unconditionally; then cleanup. -/
def task_aborted (env : Env) (s : TaskState) : HandlerResult :=
  andThenCleanup env <|
    with_state_context ({ s with status := TaskStatus.Aborted }, [], none)

/-- The body of `InferenceTaskRunner.process_event` (lines 166-190) before
error wrapping: dispatch on the event kind (the `isinstance` assertions
always hold, see `TaskEvent`); an unknown kind raises `ValueError`.  The
per-runner lock serializes calls and is not part of the state transition. -/
def process_event_body (env : Env) (s : TaskState) : TaskEvent → HandlerResult
  | .taskCreated _ round => task_created env s round
  | .taskResultReady _ hashes files => result_ready env s hashes files
  | .taskResultCommitmentsReady _ => commitment_ready env s
  | .taskSuccess _ _ => task_success env s
  | .taskAborted _ => task_aborted env s
  | .otherEvent _ kind => (s, [], some (.valueError ("Unknown event kind " ++ kind)))

/-- The `return` value of each `process_event` branch. -/
def finishedFlag : TaskEvent → Bool
  | .taskSuccess _ _ => true
  | .taskAborted _ => true
  | _ => false

/-- Result of one `process_event` call: final in-memory state, trace of side
effects, and either the returned `finished` flag or the escaping exception
(after `wrap_task_error`). -/
structure PEResult where
  state : TaskState
  trace : List Action
  outcome : Except PyExc Bool
deriving Repr

/-- `InferenceTaskRunner.process_event`: the body under `wrap_task_error`. -/
def process_event (env : Env) (s : TaskState) (ev : TaskEvent) : PEResult :=
  let r := process_event_body env s ev
  match r.2.2 with
  | some e => ⟨r.1, r.2.1, .error (wrap_task_error e)⟩
  | none => ⟨r.1, r.2.1, .ok (finishedFlag ev)⟩

/-- `TaskSystem.start._process_event` (task_system.py lines 71-97): run the
runner's `process_event`; on normal return, under a shield, remove the runner
and delete the cached state when `finished`, then ack; on cancellation,
no_ack and re-raise (the returned exception); on `TaskError`, sleep
`retry_delay` and no_ack when `retry` is set, otherwise nothing; on any other
exception, no_ack.  Returns the full trace and the re-raised exception. -/
def dispatch (env : Env) (s : TaskState) (ev : TaskEvent) : List Action × Option PyExc :=
  let r := process_event env s ev
  match r.outcome with
  | .ok finished =>
      (r.trace
        ++ (if finished then [Action.removeRunner ev.task_id, Action.deleteState ev.task_id] else [])
        ++ [Action.ack], none)
  | .error .cancelled => (r.trace ++ [Action.noAck], some .cancelled)
  | .error (.taskError te) =>
      if te.retry then (r.trace ++ [Action.sleepRetry, Action.noAck], none)
      else (r.trace, none)
  | .error _ => (r.trace ++ [Action.noAck], none)

/-- The asserted pre-status of each handler; `none` for `task_aborted`
(which asserts nothing about the status) and for unknown kinds. -/
def expectedPre : TaskEvent → Option TaskStatus
  | .taskCreated _ _ => some .Pending
  | .taskResultReady _ _ _ => some .Executing
  | .taskResultCommitmentsReady _ => some .ResultUploaded
  | .taskSuccess _ _ => some .Disclosed
  | .taskAborted _ => none
  | .otherEvent _ _ => none

/-- Environment whose relay answers `get_task` with
`RelayError(400, "getTask", "Task not ready")`; every other call succeeds. -/
def envRelayNotReady : Env :=
  { relayGetTask := .error (.relayError 400 "getTask" "Task not ready") }

/-- Handler traces contain no queue operations: `ack` and `no_ack` are
issued by the dispatcher alone. -/
theorem pe_trace_no_queue (env : Env) (s : TaskState) (ev : TaskEvent) :
    Action.ack ∉ (process_event env s ev).trace ∧
    Action.noAck ∉ (process_event env s ev).trace := by
  cases ev <;>
    simp only [process_event, process_event_body, task_created, result_ready,
      commitment_ready, task_success, task_aborted, cleanup, andThenCleanup,
      with_state_context, awaitRunTask, make_result_commitments_result] <;>
    repeat' split
  all_goals first | decide | simp_all

/-- When `process_event` returns normally, its trace contains the
state-context dump of the final (post-transition) state. -/
theorem pe_ok_dump (env : Env) (s : TaskState) (ev : TaskEvent) (b : Bool)
    (h : (process_event env s ev).outcome = .ok b) :
    Action.dump (process_event env s ev).state ∈ (process_event env s ev).trace := by
  cases ev <;>
    simp only [process_event, process_event_body, task_created, result_ready,
      commitment_ready, task_success, task_aborted, cleanup, andThenCleanup,
      with_state_context, awaitRunTask, make_result_commitments_result] at h ⊢ <;>
    repeat' split at h
  all_goals (repeat' split) <;> simp_all

/-- Every exception escaping `process_event` went through `wrap_task_error`. -/
theorem pe_outcome_error_wrap (env : Env) (s : TaskState) (ev : TaskEvent) (e : PyExc)
    (h : (process_event env s ev).outcome = .error e) :
    ∃ e', e = wrap_task_error e' := by
  simp only [process_event] at h
  split at h
  next e' heq => exact ⟨e', by simpa using h.symm⟩
  next heq => simp at h

/-- A normal return of `process_event` carries exactly the branch's
`return` value. -/
theorem pe_finished_eq (env : Env) (s : TaskState) (ev : TaskEvent) (b : Bool)
    (h : (process_event env s ev).outcome = .ok b) :
    b = finishedFlag ev := by
  simp only [process_event] at h
  split at h
  next e' heq => simp at h
  next heq => simpa using h.symm

/-- C1 (amended): a successfully processed event advances the status exactly
one step along Pending → Executing → ResultUploaded → Disclosed → Success
with the handler's asserted pre-status holding on entry — except that
`TaskAborted` sets Aborted from any status, terminal ones included, since
`task_aborted` asserts no pre-status; and a chain handler invoked with a
mismatched status raises a TaskError with source Unknown and retry=false
without mutating the state. -/
theorem pe_step (env : Env) (s : TaskState) (ev : TaskEvent) :
    (∀ b, (process_event env s ev).outcome = .ok b →
      match ev with
      | .taskCreated _ _ =>
          s.status = .Pending ∧ (process_event env s ev).state.status = .Executing
      | .taskResultReady _ _ _ =>
          s.status = .Executing ∧ (process_event env s ev).state.status = .ResultUploaded
      | .taskResultCommitmentsReady _ =>
          s.status = .ResultUploaded ∧ (process_event env s ev).state.status = .Disclosed
      | .taskSuccess _ _ =>
          s.status = .Disclosed ∧ (process_event env s ev).state.status = .Success
      | .taskAborted _ => (process_event env s ev).state.status = .Aborted
      | .otherEvent _ _ => False)
    ∧ (∀ pre, expectedPre ev = some pre → s.status ≠ pre →
        (process_event env s ev).state = s ∧
        ∃ m, (process_event env s ev).outcome = .error (.taskError ⟨m, .Unknown, false⟩)) := by
  cases ev <;>
    simp only [process_event, process_event_body, task_created, result_ready,
      commitment_ready, task_success, task_aborted, cleanup, andThenCleanup,
      with_state_context, awaitRunTask, make_result_commitments_result,
      expectedPre, wrap_task_error] <;>
    repeat' split
  all_goals simp_all

/-- C1 witness: a `TaskCreated` handled at Pending ends at Executing. -/
theorem pe_step_witness :
    (⟨1, 0, .Pending, [], []⟩ : TaskState).status = .Pending
    ∧ (process_event envOk ⟨1, 0, .Pending, [], []⟩ (.taskCreated 1 2)).state.status
        = .Executing :=
  (pe_step envOk ⟨1, 0, .Pending, [], []⟩ (.taskCreated 1 2)).1 false rfl

/-- C1 counterexample: processing `TaskAborted` on a task whose status is the
terminal Success succeeds and enters Aborted, so Aborted is not entered only
from non-terminal statuses as the claim states. -/
theorem pe_aborted_from_terminal_cex :
    (process_event envOk ⟨1, 1, .Success, ["out/a.png"], [1]⟩ (.taskAborted 1)).outcome
        = .ok true
    ∧ TaskStatus.Success ≠ TaskStatus.Pending
    ∧ (process_event envOk ⟨1, 1, .Success, ["out/a.png"], [1]⟩ (.taskAborted 1)).state.status
        = .Aborted :=
  ⟨rfl, by decide, rfl⟩

/-- C2: the dispatcher acks only after `process_event` returned normally —
never on an error or cancellation path — and then the trace is the handler
trace (which contains the dump of the post-transition state and no ack),
followed when `finished` by removing the runner and deleting the cached
state, followed by the ack. -/
theorem dispatch_ack_after_dump (env : Env) (s : TaskState) (ev : TaskEvent) :
    (∀ e, (process_event env s ev).outcome = .error e →
        Action.ack ∉ (dispatch env s ev).1)
    ∧ (∀ b, (process_event env s ev).outcome = .ok b →
        (dispatch env s ev).1 =
          (process_event env s ev).trace
            ++ (if b then [Action.removeRunner ev.task_id, Action.deleteState ev.task_id] else [])
            ++ [Action.ack]
          ∧ Action.dump (process_event env s ev).state ∈ (process_event env s ev).trace
          ∧ Action.ack ∉ (process_event env s ev).trace) := by
  have hq := pe_trace_no_queue env s ev
  constructor
  · intro e he
    simp only [dispatch, he]
    cases e <;> (repeat' split) <;> simp_all
  · intro b hb
    refine ⟨?_, pe_ok_dump env s ev b hb, hq.1⟩
    simp [dispatch, hb]

/-- C2 witness: a successful `TaskResultCommitmentsReady` is acked last,
after a trace containing the dump. -/
theorem dispatch_ack_after_dump_witness :
    ((dispatch envOk ⟨1, 1, .ResultUploaded, ["o/a"], [1]⟩ (.taskResultCommitmentsReady 1)).1
        = (process_event envOk ⟨1, 1, .ResultUploaded, ["o/a"], [1]⟩
             (.taskResultCommitmentsReady 1)).trace
            ++ (if false then
                  [Action.removeRunner (TaskEvent.taskResultCommitmentsReady 1).task_id,
                   Action.deleteState (TaskEvent.taskResultCommitmentsReady 1).task_id]
                else [])
            ++ [Action.ack])
    ∧ Action.dump (process_event envOk ⟨1, 1, .ResultUploaded, ["o/a"], [1]⟩
          (.taskResultCommitmentsReady 1)).state
        ∈ (process_event envOk ⟨1, 1, .ResultUploaded, ["o/a"], [1]⟩
            (.taskResultCommitmentsReady 1)).trace
    ∧ Action.ack ∉ (process_event envOk ⟨1, 1, .ResultUploaded, ["o/a"], [1]⟩
        (.taskResultCommitmentsReady 1)).trace :=
  (dispatch_ack_after_dump envOk ⟨1, 1, .ResultUploaded, ["o/a"], [1]⟩
    (.taskResultCommitmentsReady 1)).2 false rfl

/-- C3 (amended): on a TaskError with retry=false the dispatcher performs no
queue operation at all — neither `ack` nor `no_ack` — so the event is not
redelivered but is also never consumed by an ack; the dispatcher trace is the
handler trace unchanged. -/
theorem dispatch_noretry_drop (env : Env) (s : TaskState) (ev : TaskEvent) (te : TaskError)
    (h : (process_event env s ev).outcome = .error (.taskError te)) (hr : te.retry = false) :
    (dispatch env s ev).1 = (process_event env s ev).trace
    ∧ Action.ack ∉ (dispatch env s ev).1
    ∧ Action.noAck ∉ (dispatch env s ev).1 := by
  have hq := pe_trace_no_queue env s ev
  simp [dispatch, h, hr, hq.1, hq.2]

/-- C3 witness: a precondition failure (retry=false) leaves the dispatcher
trace equal to the handler trace, with no ack and no no_ack. -/
theorem dispatch_noretry_drop_witness :
    (dispatch envOk ⟨1, 1, .Pending, [], []⟩ (.taskResultReady 1 [] [])).1
      = (process_event envOk ⟨1, 1, .Pending, [], []⟩ (.taskResultReady 1 [] [])).trace
    ∧ Action.ack ∉ (dispatch envOk ⟨1, 1, .Pending, [], []⟩ (.taskResultReady 1 [] [])).1
    ∧ Action.noAck ∉ (dispatch envOk ⟨1, 1, .Pending, [], []⟩ (.taskResultReady 1 [] [])).1 :=
  dispatch_noretry_drop envOk ⟨1, 1, .Pending, [], []⟩ (.taskResultReady 1 [] [])
    ⟨"Task status is not executing when receive event TaskResultReady.", .Unknown, false⟩
    rfl rfl

/-- C3 counterexample: a `TaskResultReady` at status Pending raises a
TaskError with retry=false, and the dispatcher never calls `queue.ack` —
contradicting the claim that it consumes the event by calling ack. -/
theorem dispatch_noretry_no_ack_cex :
    (process_event envOk ⟨1, 1, .Pending, [], []⟩ (.taskResultReady 1 [] [])).outcome
      = .error (.taskError
          ⟨"Task status is not executing when receive event TaskResultReady.", .Unknown, false⟩)
    ∧ Action.ack ∉ (dispatch envOk ⟨1, 1, .Pending, [], []⟩ (.taskResultReady 1 [] [])).1 :=
  ⟨rfl, by decide⟩

/-- C4 (amended): a `RelayError(400, "getTask", …"Task not ready"…)` during
`TaskCreated` is classified Relay with retry=true and the event is
redelivered after `retry_delay` (sleep then no_ack), with status, files and
result unchanged — but `round` has already been set to the event's round and
is persisted by the state-context dump. -/
theorem task_created_relay_transient (env : Env) (s : TaskState) (tid round : Nat) (m : String)
    (hst : s.status = .Pending)
    (hrelay : env.relayGetTask = .error (.relayError 400 "getTask" m))
    (hm : strContains m "Task not ready" = true) :
    (process_event env s (.taskCreated tid round)).outcome
        = .error (.taskError ⟨m, .Relay, true⟩)
    ∧ (process_event env s (.taskCreated tid round)).state = { s with round := round }
    ∧ (process_event env s (.taskCreated tid round)).trace
        = [Action.relayGetTask s.task_id, Action.dump { s with round := round }]
    ∧ (dispatch env s (.taskCreated tid round)).1
        = [Action.relayGetTask s.task_id, Action.dump { s with round := round },
           Action.sleepRetry, Action.noAck] := by
  have hpe : process_event env s (.taskCreated tid round)
      = ⟨{ s with round := round },
         [Action.relayGetTask s.task_id, Action.dump { s with round := round }],
         .error (.taskError ⟨m, .Relay, true⟩)⟩ := by
    simp [process_event, process_event_body, task_created, with_state_context, hst, hrelay,
      wrap_task_error, hm]
  refine ⟨by rw [hpe], by rw [hpe], by rw [hpe], ?_⟩
  simp [dispatch, hpe]

/-- C4 witness: the amended behaviour at a concrete Pending state and
"Task not ready" relay answer. -/
theorem task_created_relay_transient_witness :
    (process_event envRelayNotReady ⟨1, 0, .Pending, [], []⟩ (.taskCreated 1 2)).outcome
        = .error (.taskError ⟨"Task not ready", .Relay, true⟩)
    ∧ (process_event envRelayNotReady ⟨1, 0, .Pending, [], []⟩ (.taskCreated 1 2)).state
        = ⟨1, 2, .Pending, [], []⟩
    ∧ (process_event envRelayNotReady ⟨1, 0, .Pending, [], []⟩ (.taskCreated 1 2)).trace
        = [Action.relayGetTask 1, Action.dump ⟨1, 2, .Pending, [], []⟩]
    ∧ (dispatch envRelayNotReady ⟨1, 0, .Pending, [], []⟩ (.taskCreated 1 2)).1
        = [Action.relayGetTask 1, Action.dump ⟨1, 2, .Pending, [], []⟩,
           Action.sleepRetry, Action.noAck] :=
  task_created_relay_transient envRelayNotReady ⟨1, 0, .Pending, [], []⟩ 1 2 "Task not ready"
    rfl rfl (by decide)

/-- C4 counterexample: with pre-event round 0 and event round 2, the dumped
state carries round 2, so the persisted state is not unchanged as the claim
states (the error classification itself is Relay / retry=true as claimed). -/
theorem task_created_round_persisted_cex :
    (process_event envRelayNotReady ⟨1, 0, .Pending, [], []⟩ (.taskCreated 1 2)).outcome
        = .error (.taskError ⟨"Task not ready", .Relay, true⟩)
    ∧ (process_event envRelayNotReady ⟨1, 0, .Pending, [], []⟩ (.taskCreated 1 2)).trace
        = [Action.relayGetTask 1, Action.dump ⟨1, 2, .Pending, [], []⟩]
    ∧ (process_event envRelayNotReady ⟨1, 0, .Pending, [], []⟩ (.taskCreated 1 2)).state.round = 2
    ∧ (2 : Nat) ≠ 0 :=
  ⟨rfl, rfl, rfl, by decide⟩

/-- C5: processing `TaskAborted` for a task that produced no files does NOT
complete — `delete_result_files` asserts `len(files) > 0` with no exception
handling, so cleanup raises and `process_event` ends in a TaskError
(source Unknown, retry=false, empty assertion message) after the Aborted
state was dumped and the success/aborted watches were released; no deletion
is attempted. -/
theorem cleanup_empty_files_raises :
    (process_event envOk ⟨1, 1, .Executing, [], []⟩ (.taskAborted 1)).outcome
        = .error (.taskError ⟨"", .Unknown, false⟩)
    ∧ (process_event envOk ⟨1, 1, .Executing, [], []⟩ (.taskAborted 1)).trace
        = [Action.dump ⟨1, 1, .Aborted, [], []⟩, Action.unwatchSuccess, Action.unwatchAborted]
    ∧ (∀ d, Action.rmtreeDir d ∉ (process_event envOk ⟨1, 1, .Executing, [], []⟩
         (.taskAborted 1)).trace) :=
  ⟨rfl, rfl, by
    intro d
    rw [show (process_event envOk ⟨1, 1, .Executing, [], []⟩ (.taskAborted 1)).trace
        = [Action.dump ⟨1, 1, .Aborted, [], []⟩, Action.unwatchSuccess, Action.unwatchAborted]
      from rfl]
    simp⟩

/-- C6: after a successful `TaskResultReady` the stored result is the
in-order concatenation of the hex-decoded hashes (each with its leading two
characters stripped), the empty hashes list giving the empty result; on a
failed `TaskResultReady`, and on every other event, the stored result is
unchanged. -/
theorem pe_result_concat (env : Env) (s : TaskState) (ev : TaskEvent) :
    (∀ tid hashes files b,
        ev = .taskResultReady tid hashes files →
        (process_event env s ev).outcome = .ok b →
        ∃ parts, hashes.mapM (fun h => bytesFromHex (dropTwo h)) = .ok parts
          ∧ (process_event env s ev).state.result = parts.flatten
          ∧ (hashes = [] → (process_event env s ev).state.result = []))
    ∧ (∀ tid hashes files e,
        ev = .taskResultReady tid hashes files →
        (process_event env s ev).outcome = .error e →
        (process_event env s ev).state.result = s.result)
    ∧ ((∀ tid hashes files, ev ≠ .taskResultReady tid hashes files) →
        (process_event env s ev).state.result = s.result) := by
  refine ⟨?_, ?_, ?_⟩
  · rintro tid hashes files b rfl h
    rcases hd : decodeHashes hashes with e | res
    · exfalso
      simp only [process_event, process_event_body, result_ready, with_state_context,
        make_result_commitments_result, hd] at h
      repeat' split at h
      all_goals simp_all
    · have hparts : ∃ parts, List.mapM (fun h => bytesFromHex (dropTwo h)) hashes = .ok parts
          ∧ res = parts.flatten := by
        unfold decodeHashes at hd
        split at hd
        · simp at hd
        · next parts heq => exact ⟨parts, heq, by simpa using hd.symm⟩
      obtain ⟨parts, hm, hres⟩ := hparts
      have hstate : (process_event env s (.taskResultReady tid hashes files)).state.result
          = parts.flatten := by
        simp only [process_event, process_event_body, result_ready, with_state_context,
          make_result_commitments_result, hd] at h ⊢
        repeat' split at h
        all_goals simp_all
      refine ⟨parts, hm, hstate, ?_⟩
      rintro rfl
      have hp : parts = [] := by
        have := hm
        simp only [List.mapM, List.mapM.loop, pure, Except.pure, List.reverse_nil] at this
        exact (Except.ok.injEq _ _ ▸ this).symm
      rw [hstate, hp]
      rfl
  · rintro tid hashes files e rfl h
    rcases hd : decodeHashes hashes with e' | res <;>
      simp only [process_event, process_event_body, result_ready, with_state_context,
        make_result_commitments_result, hd] at h ⊢ <;>
      (repeat' split at h) <;> (repeat' split) <;> simp_all
  · intro hne
    cases ev <;>
      simp only [process_event, process_event_body, task_created, commitment_ready,
        task_success, task_aborted, cleanup, andThenCleanup, with_state_context,
        awaitRunTask] <;>
      (repeat' split) <;> simp_all

/-- C6 witness: hashes 0x0102 and 0x0304 store result bytes 01 02 03 04. -/
theorem pe_result_concat_witness :
    ∃ parts, List.mapM (fun h => bytesFromHex (dropTwo h)) ["0x0102", "0x0304"] = .ok parts
      ∧ (process_event envOk ⟨1, 1, .Executing, [], []⟩
          (.taskResultReady 1 ["0x0102", "0x0304"] ["o/a", "o/b"])).state.result = parts.flatten
      ∧ (["0x0102", "0x0304"] = ([] : List String) →
          (process_event envOk ⟨1, 1, .Executing, [], []⟩
            (.taskResultReady 1 ["0x0102", "0x0304"] ["o/a", "o/b"])).state.result = []) :=
  (pe_result_concat envOk ⟨1, 1, .Executing, [], []⟩
      (.taskResultReady 1 ["0x0102", "0x0304"] ["o/a", "o/b"])).1
    1 ["0x0102", "0x0304"] ["o/a", "o/b"] false rfl rfl

/-- C7: `wrap_task_error` classifies exactly per the table — cancellation is
re-raised verbatim (and is the only exception not wrapped); AssertionError
becomes Unknown/no-retry; RelayError becomes Relay with retry exactly when
status 400, method getTask and the message contains "Task not found" or
"Task not ready"; TxRevertedError becomes Contracts/no-retry; a celery error
becomes Celery with retry exactly when it is a timeout or retry signal;
TaskFailure becomes Celery/retry; any other exception becomes
Unknown/retry. -/
theorem wrap_spec :
    wrap_task_error .cancelled = .cancelled
    ∧ (∀ e, wrap_task_error e = .cancelled → e = .cancelled)
    ∧ (∀ m, wrap_task_error (.assertionError m) = .taskError ⟨m, .Unknown, false⟩)
    ∧ (∀ sc meth m, wrap_task_error (.relayError sc meth m)
        = .taskError ⟨m, .Relay,
            sc = 400 && meth = "getTask"
              && (strContains m "Task not found" || strContains m "Task not ready")⟩)
    ∧ (∀ m, wrap_task_error (.txRevertedError m) = .taskError ⟨m, .Contracts, false⟩)
    ∧ (∀ t r m, wrap_task_error (.celeryError t r m) = .taskError ⟨m, .Celery, t || r⟩)
    ∧ (∀ m, wrap_task_error (.taskFailure m) = .taskError ⟨m, .Celery, true⟩)
    ∧ (∀ m, wrap_task_error (.valueError m) = .taskError ⟨m, .Unknown, true⟩)
    ∧ (∀ m, wrap_task_error (.otherExc m) = .taskError ⟨m, .Unknown, true⟩) := by
  refine ⟨rfl, ?_, fun _ => rfl, fun _ _ _ => rfl, fun _ => rfl, fun _ _ _ => rfl,
    fun _ => rfl, fun _ => rfl, fun _ => rfl⟩
  intro e he
  cases e <;> simp_all [wrap_task_error]

/-- C7 witness: a relay 400 getTask error whose message contains
"Task not ready" is wrapped as Relay with retry=true. -/
theorem wrap_spec_witness :
    wrap_task_error (.relayError 400 "getTask" "error on method getTask: Task not ready")
      = .taskError ⟨"error on method getTask: Task not ready", .Relay, true⟩ := by
  have h := wrap_spec.2.2.2.1 400 "getTask" "error on method getTask: Task not ready"
  simpa using h

/-- C8: when `process_event` returns normally it returns exactly the
branch's flag, which is true precisely for TaskSuccess and TaskAborted and
false for the three non-terminal events. -/
theorem pe_finished_iff (env : Env) (s : TaskState) (ev : TaskEvent) (b : Bool)
    (h : (process_event env s ev).outcome = .ok b) :
    b = finishedFlag ev
    ∧ (b = true ↔ (∃ tid res, ev = .taskSuccess tid res) ∨ ∃ tid, ev = .taskAborted tid) := by
  have hb := pe_finished_eq env s ev b h
  subst hb
  refine ⟨rfl, ?_⟩
  cases ev <;> simp [finishedFlag]

/-- C8 witness: a successful TaskCreated returns false and a successful
TaskSuccess returns true. -/
theorem pe_finished_iff_witness :
    (false = finishedFlag (.taskCreated 1 2)
      ∧ (false = true ↔ (∃ tid res, TaskEvent.taskCreated 1 2 = .taskSuccess tid res)
          ∨ ∃ tid, TaskEvent.taskCreated 1 2 = .taskAborted tid))
    ∧ (true = finishedFlag (TaskEvent.taskSuccess 1 [1])
      ∧ (true = true ↔ (∃ tid res, TaskEvent.taskSuccess 1 [1] = .taskSuccess tid res)
          ∨ ∃ tid, TaskEvent.taskSuccess 1 [1] = .taskAborted tid)) :=
  ⟨pe_finished_iff envOk ⟨1, 0, .Pending, [], []⟩ (.taskCreated 1 2) false rfl,
   pe_finished_iff envOk ⟨1, 1, .Disclosed, ["o/a"], [1]⟩ (.taskSuccess 1 [1]) true rfl⟩

/-- C9: a `TaskResultCommitmentsReady` at status ResultUploaded with an empty
result raises a TaskError (Unknown, retry=false) without any disclosure call;
a disclosure happens only when the status matches and the result is
non-empty; and the commitment subscription is unwatched only on the success
path, after the disclosure and the state dump. -/
theorem commitment_ready_spec (env : Env) (s : TaskState) (tid : Nat) :
    (s.status = .ResultUploaded → s.result = [] →
        (process_event env s (.taskResultCommitmentsReady tid)).outcome
          = .error (.taskError
              ⟨"Task result not found when receive event TaskResultCommitmentsReady.",
               .Unknown, false⟩)
        ∧ ∀ t rd res, Action.disclose t rd res
            ∉ (process_event env s (.taskResultCommitmentsReady tid)).trace)
    ∧ (∀ t rd res, Action.disclose t rd res
          ∈ (process_event env s (.taskResultCommitmentsReady tid)).trace →
        s.status = .ResultUploaded ∧ 0 < s.result.length)
    ∧ (Action.unwatchCommitment ∈ (process_event env s (.taskResultCommitmentsReady tid)).trace →
        (process_event env s (.taskResultCommitmentsReady tid)).outcome = .ok false
        ∧ env.discloseResult = .ok ()
        ∧ (process_event env s (.taskResultCommitmentsReady tid)).trace
            = [Action.disclose s.task_id s.round s.result,
               Action.dump (process_event env s (.taskResultCommitmentsReady tid)).state,
               Action.unwatchCommitment]) := by
  refine ⟨?_, ?_, ?_⟩
  · intro hst hres
    simp only [process_event, process_event_body, commitment_ready, with_state_context,
      hst, hres, wrap_task_error]
    repeat' split
    all_goals simp_all
  · intro t rd res hmem
    simp only [process_event, process_event_body, commitment_ready, with_state_context] at hmem
    repeat' split at hmem
    all_goals simp_all
  · intro hmem
    simp only [process_event, process_event_body, commitment_ready, with_state_context] at hmem ⊢
    repeat' split at hmem
    all_goals simp_all [finishedFlag]

/-- C9 witness: at ResultUploaded with empty result the handler raises
Unknown/no-retry and no disclosure is in the trace. -/
theorem commitment_ready_spec_witness :
    (process_event envOk ⟨1, 1, .ResultUploaded, ["o/a"], []⟩
        (.taskResultCommitmentsReady 1)).outcome
      = .error (.taskError
          ⟨"Task result not found when receive event TaskResultCommitmentsReady.",
           .Unknown, false⟩)
    ∧ Action.disclose 1 1 [] ∉ (process_event envOk ⟨1, 1, .ResultUploaded, ["o/a"], []⟩
        (.taskResultCommitmentsReady 1)).trace :=
  ⟨((commitment_ready_spec envOk ⟨1, 1, .ResultUploaded, ["o/a"], []⟩ 1).1 rfl rfl).1,
   ((commitment_ready_spec envOk ⟨1, 1, .ResultUploaded, ["o/a"], []⟩ 1).1 rfl rfl).2 1 1 []⟩

/-- C10: every exception escaping `process_event` is the cancellation
exception or a TaskError — every other exception raised in a handler body is
converted by `wrap_task_error` — so a TaskError outcome always takes the
dispatcher's TaskError branch and the generic unknown-exception branch is
unreachable for handler-body errors. -/
theorem pe_errors_classified (env : Env) (s : TaskState) (ev : TaskEvent) :
    (∀ e, (process_event env s ev).outcome = .error e →
        e = .cancelled ∨ ∃ te, e = .taskError te)
    ∧ (∀ te, (process_event env s ev).outcome = .error (.taskError te) →
        (dispatch env s ev).1 =
          (process_event env s ev).trace
            ++ (if te.retry then [Action.sleepRetry, Action.noAck] else [])) := by
  constructor
  · intro e he
    obtain ⟨e', rfl⟩ := pe_outcome_error_wrap env s ev e he
    cases e' <;> simp [wrap_task_error]
  · intro te hte
    simp only [dispatch, hte]
    split <;> simp_all

/-- C10 witness: the error escaping the empty-files TaskAborted is a
TaskError, not an unclassified exception. -/
theorem pe_errors_classified_witness :
    PyExc.taskError ⟨"", .Unknown, false⟩ = .cancelled
      ∨ ∃ te, PyExc.taskError ⟨"", .Unknown, false⟩ = .taskError te :=
  (pe_errors_classified envOk ⟨1, 1, .Executing, [], []⟩ (.taskAborted 1)).1
    (.taskError ⟨"", .Unknown, false⟩) rfl

end Crynux
